import Mathlib

/-! Shallow embedding of the manim-worker rendering job service
(src/manim-worker/app/main.py) together with proofs about its behaviour.

Modelling conventions:
- subprocess boundaries (the pip installer, the manim renderer) and the
  filesystem listing produced by the renderer are explicit inputs, collected
  in the structure RenderEnv;
- Python None is Option.none; Python string truthiness is an explicit check;
- exceptions are Except values; an exception escaping a function is the
  error branch of its result;
- the in-memory job registry is an association list passed explicitly.
-/

namespace ManimWorker

/-- The JobStatus enumeration (main.py lines 40-44). -/
inductive JobStatus
  | pending
  | running
  | completed
  | failed
deriving DecidableEq, Repr

/-- The Job record (main.py lines 53-61); none models the Python None
defaults of output_path and error_message. -/
structure Job where
  id : String
  status : JobStatus
  quality : String
  additional_packages : List String
  stdout_log : String := ""
  stderr_log : String := ""
  output_path : Option String := none
  error_message : Option String := none
deriving DecidableEq, Repr

/-- A creation request after pydantic validation (main.py lines 47-50):
quality has already received its default, all field constraints hold. -/
structure CreateJobRequest where
  python_code : String
  quality : String
  additional_packages : Option (List String)
deriving DecidableEq, Repr

/-- The raw creation request body before validation; a none field is a field
absent from the JSON body. -/
structure RawCreateJobRequest where
  python_code : String
  quality : Option String
  additional_packages : Option (List String)
deriving DecidableEq, Repr

/-- The request schema pattern for quality (main.py line 49,
Field pattern regex of low, medium or high anchored at both ends). -/
def validQuality (q : String) : Bool :=
  q == "low" || q == "medium" || q == "high"

/-- Pydantic validation of CreateJobRequest (main.py lines 47-50):
python_code must have length 1 to 50000, quality must match the pattern
(defaulting to medium when absent), additional_packages may have at most 10
entries.  A none result is an HTTP 422 rejection before any handler runs. -/
def validateCreateJobRequest (r : RawCreateJobRequest) : Option CreateJobRequest :=
  if r.python_code.length < 1 then none
  else if 50000 < r.python_code.length then none
  else if validQuality (r.quality.getD "medium") = false then none
  else
    match r.additional_packages with
    | some ps =>
        if 10 < ps.length then none
        else some { python_code := r.python_code
                    quality := r.quality.getD "medium"
                    additional_packages := some ps }
    | none =>
        some { python_code := r.python_code
               quality := r.quality.getD "medium"
               additional_packages := none }

/-- The quality-to-flag table (main.py lines 68-74): a Python dict lookup
flags[quality]; none models the KeyError raised on a key outside the table. -/
def quality_flag (quality : String) : Option String :=
  if quality == "low" then some "-ql"
  else if quality == "medium" then some "-qm"
  else if quality == "high" then some "-qh"
  else none

/-- The observable result of one subprocess invocation: exit code and the
captured standard output and standard error text. -/
structure ProcResult where
  returncode : Int
  stdout : String
  stderr : String
deriving DecidableEq, Repr

/-- Python exceptions relevant to the pipeline.  calledProcessError is what
subprocess.run raises under check equal True on a non-zero exit;
retryError is tenacity.RetryError, wrapping the last failed attempt;
keyError is the dict-lookup failure of quality_flag. -/
inductive PyExc
  | keyError (key : String)
  | calledProcessError (r : ProcResult)
  | retryError (last : ProcResult)
deriving DecidableEq, Repr

/-- Textual description str(exc) of an exception, as stored by the executor
into error_message.  The hexadecimal object address inside the real
tenacity RetryError text is abstracted away; what matters below is only
that none of these strings is a pipeline error message. -/
def strOfExc : PyExc → String
  | .keyError k => k
  | .calledProcessError r => "Command returned non-zero exit status " ++ toString r.returncode
  | .retryError _ => "RetryError[<Future state=finished raised CalledProcessError>]"

/-- The pip installer invocation (main.py lines 77-87).  runs i is the result
of the i-th installer subprocess call (0-based).  The tenacity decorator
retry(stop equal stop_after_attempt 3, wait equal wait_fixed 1) calls the
body up to 3 times; each non-zero exit raises CalledProcessError (because of
check equal True), which tenacity swallows and retries; when the third
attempt also fails, tenacity raises RetryError wrapping the last attempt
(reraise is left at its default False, so the CalledProcessError itself is
never re-raised out of pip_install). -/
def pip_install (runs : Nat → ProcResult) : Except PyExc ProcResult :=
  if (runs 0).returncode = 0 then .ok (runs 0)
  else if (runs 1).returncode = 0 then .ok (runs 1)
  else if (runs 2).returncode = 0 then .ok (runs 2)
  else .error (.retryError (runs 2))

/-- Number of installer subprocess invocations pip_install performs. -/
def pipAttempts (runs : Nat → ProcResult) : Nat :=
  if (runs 0).returncode = 0 then 1
  else if (runs 1).returncode = 0 then 2
  else 3

/-- Environmental inputs of one pipeline execution: the result of each pip
installer invocation, the result of the renderer subprocess, and the
scratch-relative paths of the files present in the scratch directory after
the renderer returns. -/
structure RenderEnv where
  pipRuns : Nat → ProcResult
  renderResult : ProcResult
  scratchFiles : List String

/-- The recursive glob media_dir.glob over pattern star-star slash star
dot mp4 (main.py lines 145-146): every file under the media subdirectory of
the scratch directory whose name ends in .mp4, in filesystem enumeration
order (here: the order of scratchFiles).  The path predicates are expressed
on the character lists of the scratch-relative path: the path starts with
the media/ directory and has the .mp4 extension. -/
def mp4Glob (scratchFiles : List String) : List String :=
  scratchFiles.filter (fun p =>
    List.isPrefixOf "media/".data p.data && List.isSuffixOf ".mp4".data p.data)

/-- Result of one run_manim call: outcome is the returned Job (ok) or an
exception escaping run_manim together with the job object as already mutated
at the raise point (error); copies lists the source and destination of every
file copy into the output root performed by the call. -/
structure PipelineResult where
  outcome : Except (PyExc × Job) Job
  copies : List (String × String)
deriving Repr

/-- Render invocation, output discovery and publication
(main.py lines 111-162): run the renderer subprocess, append its captured
output to the logs regardless of outcome, fail on a non-zero exit, glob for
mp4 files under media, fail when none exist, otherwise copy the first to
outputRoot slash job id dot mp4, set output_path and mark completed. -/
def render_and_publish (job : Job) (env : RenderEnv) (outputRoot : String) :
    PipelineResult :=
  let render_process := env.renderResult
  let job := { job with stdout_log := job.stdout_log ++ render_process.stdout
                        stderr_log := job.stderr_log ++ render_process.stderr }
  if render_process.returncode ≠ 0 then
    { outcome := .ok { job with status := .failed
                                error_message := some "Manim rendering failed" }
      copies := [] }
  else
    match mp4Glob env.scratchFiles with
    | [] =>
        { outcome := .ok { job with status := .failed
                                    error_message := some "No MP4 generated" }
          copies := [] }
    | first :: _ =>
        let output_dest := outputRoot ++ "/" ++ job.id ++ ".mp4"
        { outcome := .ok { job with output_path := some output_dest
                                    status := .completed }
          copies := [(first, output_dest)] }

/-- The rendering pipeline run_manim (main.py lines 90-162).  Looks up the
quality flag (a KeyError escapes), stages the script, and when
additional_packages is truthy runs pip_install: on success the captured
output is appended to the logs, a CalledProcessError is caught and turns the
job into the failed state with message Failed to install additional packages,
and any other exception (in particular tenacity.RetryError) escapes.
Then hands over to render_and_publish. -/
def run_manim (job : Job) (request : CreateJobRequest) (env : RenderEnv)
    (outputRoot : String) : PipelineResult :=
  match quality_flag request.quality with
  | none => { outcome := .error (.keyError request.quality, job), copies := [] }
  | some _render_flag =>
    let haveInstalls :=
      match request.additional_packages with
      | none => false
      | some ps => !ps.isEmpty
    if haveInstalls then
      match pip_install env.pipRuns with
      | .ok install_result =>
          render_and_publish
            { job with stdout_log := job.stdout_log ++ install_result.stdout
                       stderr_log := job.stderr_log ++ install_result.stderr }
            env outputRoot
      | .error (PyExc.calledProcessError exc) =>
          { outcome := .ok { job with status := .failed
                                      stderr_log := job.stderr_log ++ exc.stderr
                                      error_message :=
                                        some "Failed to install additional packages" }
            copies := [] }
      | .error e =>
          { outcome := .error (e, job), copies := [] }
    else
      render_and_publish job env outputRoot

/-- Best-effort directory removal shutil.rmtree (main.py line 179).  succeeds
says whether the underlying removal succeeds; with ignore_errors set the
failure is swallowed, otherwise it raises. -/
def rmtree (ignore_errors : Bool) (succeeds : Bool) : Except String Unit :=
  if succeeds then .ok ()
  else if ignore_errors then .ok ()
  else .error "OSError"

/-- Observable side effects of the executor, in program order. -/
inductive Effect
  | markRunning (id : String)
  | removeScratch (dir : String)
  | publishRecord (id : String)
deriving DecidableEq, Repr

/-- Result of one execute_job call. -/
structure ExecResult where
  finalJob : Job
  copies : List (String × String)
  statusWrites : List JobStatus
  effects : List Effect
deriving Repr

/-- The job executor (main.py lines 165-182).  Marks the job running under
the registry lock, runs run_manim; an exception escaping run_manim is caught
and turns the job (as mutated at the raise point) into failed with the
exception text as error_message; the scratch directory is removed in the
finally block with ignore_errors set, before the terminal record is
published back to the registry.  An error result would be an exception
escaping the executor itself. -/
def execute_job (job : Job) (request : CreateJobRequest) (env : RenderEnv)
    (outputRoot tmpDir : String) (rmtreeOk : Bool) : Except String ExecResult :=
  let running : Job := { job with status := JobStatus.running }
  let r := run_manim running request env outputRoot
  let updated_job :=
    match r.outcome with
    | .ok j => j
    | .error (exc, jAtRaise) =>
        { jAtRaise with status := .failed, error_message := some (strOfExc exc) }
  match rmtree true rmtreeOk with
  | .error e => .error e
  | .ok _ =>
      .ok { finalJob := updated_job
            copies := r.copies
            statusWrites := [JobStatus.running, updated_job.status]
            effects := [.markRunning job.id, .removeScratch tmpDir,
                        .publishRecord job.id] }

/-- Construction of the pending job record in the create_job handler
(main.py lines 186-194); additional_packages falls back to the empty list
for a falsy payload field. -/
def create_job (payload : CreateJobRequest) (job_id : String) : Job :=
  { id := job_id
    status := JobStatus.pending
    quality := payload.quality
    additional_packages := payload.additional_packages.getD []
    stdout_log := ""
    stderr_log := ""
    output_path := none
    error_message := none }

/-- Every status value the registry holds for one job over its lifetime, in
order: pending at creation, then the writes performed by its (unique)
executor run. -/
def jobStatusHistory (payload : CreateJobRequest) (env : RenderEnv)
    (outputRoot tmpDir job_id : String) (rmtreeOk : Bool) : List JobStatus :=
  let j0 := create_job payload job_id
  match execute_job j0 payload env outputRoot tmpDir rmtreeOk with
  | .ok res => j0.status :: res.statusWrites
  | .error _ => [j0.status]

/-- The in-memory job registry (main.py line 65): the Python dict jobs,
modelled as an association list from job id to record in insertion order. -/
abbrev Registry : Type := List (String × Job)

/-- Dictionary lookup jobs.get, returning the record bound to id. -/
def Registry.get (R : Registry) (id : String) : Option Job :=
  (List.find? (fun p => p.1 == id) R).map Prod.snd

/-- Dictionary write jobs[id] equal j: replaces an existing binding for id,
otherwise appends a new one. -/
def Registry.set (R : Registry) (id : String) (j : Job) : Registry :=
  if List.any R (fun p => p.1 == id) then
    List.map (fun p => if p.1 == id then (id, j) else p) R
  else R ++ [(id, j)]

/-- Snapshot list(jobs.values()). -/
def Registry.values (R : Registry) : List Job :=
  List.map Prod.snd R

/-- Registry size len(jobs). -/
def Registry.size (R : Registry) : Nat :=
  List.length R

/-- Successful response of the POST jobs handler. -/
structure CreateResponse where
  statusCode : Nat
  body : Job
deriving DecidableEq, Repr

/-- The POST jobs endpoint (main.py lines 185-200) including the pydantic
validation FastAPI performs first: a validation failure is a 422 with no
job record created (none); otherwise the handler builds the pending record,
inserts it under the lock, schedules the executor and returns it with
status code 201. -/
def create_job_endpoint (raw : RawCreateJobRequest) (job_id : String)
    (R : Registry) : Option (CreateResponse × Registry) :=
  match validateCreateJobRequest raw with
  | none => none
  | some payload =>
      let job := create_job payload job_id
      some ({ statusCode := 201, body := job }, R.set job_id job)

/-- The GET jobs handler list_jobs (main.py lines 203-206). -/
def list_jobs (R : Registry) : List Job :=
  R.values

/-- The GET jobs id handler get_job (main.py lines 209-217): 404 with detail
Job not found for an unknown id, otherwise the record. -/
def get_job (R : Registry) (job_id : String) : Except (Nat × String) Job :=
  match R.get job_id with
  | none => .error (404, "Job not found")
  | some job => .ok job

/-- Python truthiness of an Optional str: falsy exactly on None and the
empty string. -/
def pyFalsy : Option String → Bool
  | none => true
  | some s => s == ""

/-- Basename Path(p).name: the part of p after its last slash. -/
def pathName (p : String) : String :=
  String.mk ((p.data.reverse.takeWhile (fun c => c != '/')).reverse)

/-- Responses of the video download endpoint. -/
inductive VideoResponse
  | notFound404 (detail : String)
  | notCompleted409 (detail : String)
  | expired410 (detail : String)
  | fileResponse (path : String) (media_type : String) (filename : String)
deriving DecidableEq, Repr

/-- The GET jobs id video handler download_video (main.py lines 220-235).
fileExists is the disk state Path.exists at request time. -/
def download_video (R : Registry) (fileExists : String → Bool)
    (job_id : String) : VideoResponse :=
  match R.get job_id with
  | none => VideoResponse.notFound404 "Job not found"
  | some job =>
      if job.status ≠ JobStatus.completed ∨ pyFalsy job.output_path = true then
        VideoResponse.notCompleted409 "Job not completed"
      else
        match job.output_path with
        | none => VideoResponse.notCompleted409 "Job not completed"
        | some video_path =>
            if fileExists video_path = false then
              VideoResponse.expired410 "Video expired"
            else
              VideoResponse.fileResponse video_path "video/mp4"
                (pathName video_path)

/-- The GET health handler health_check (main.py lines 238-242): reports the
current registry size and the resolved output root. -/
def health_check (R : Registry) (outputRoot : String) : Nat × String :=
  (R.size, outputRoot)

/-- The individual registry accesses a handler can perform on the shared
dict jobs. -/
inductive RegOp
  | lookup (id : String)
  | listValues
  | size
  | setRecord (id : String) (j : Job)
deriving Repr

/-- Effect of one registry access on the registry state. -/
def applyRegOp (R : Registry) (op : RegOp) : Registry :=
  match op with
  | .lookup _ => R
  | .listValues => R
  | .size => R
  | .setRecord id j => R.set id j

/-- Sequential effect of a handler's registry accesses. -/
def runOps (R : Registry) (ops : List RegOp) : Registry :=
  ops.foldl applyRegOp R

/-- Registry accesses of GET jobs (main.py lines 203-206): one snapshot of
the values under the lock. -/
def list_jobs_ops : List RegOp := [RegOp.listValues]

/-- Registry accesses of GET jobs id (main.py lines 209-217): one lookup. -/
def get_job_ops (id : String) : List RegOp := [RegOp.lookup id]

/-- Registry accesses of GET jobs id video (main.py lines 220-235): one
lookup; the remaining work reads the job copy and the disk only. -/
def download_video_ops (id : String) : List RegOp := [RegOp.lookup id]

/-- Registry accesses of GET health (main.py lines 238-242): len(jobs). -/
def health_check_ops : List RegOp := [RegOp.size]

/-- Terminal job states. -/
def isTerminal (s : JobStatus) : Prop :=
  s = JobStatus.completed ∨ s = JobStatus.failed

/-- The legal status transitions of the data model. -/
def allowedTransition : JobStatus → JobStatus → Prop
  | .pending, .running => True
  | .running, .completed => True
  | .running, .failed => True
  | _, _ => False

/-- Concrete request for the dependency-installation failure scenario:
one additional package, installer failing on every attempt. -/
def c1Request : CreateJobRequest :=
  { python_code := "from manim import Scene"
    quality := "medium"
    additional_packages := some ["nonexistent-package"] }

/-- Concrete environment in which every pip attempt exits 1. -/
def c1Env : RenderEnv :=
  { pipRuns := fun _ => { returncode := 1, stdout := "pip out", stderr := "pip err" }
    renderResult := { returncode := 0, stdout := "", stderr := "" }
    scratchFiles := [] }

/-- Concrete environment for a fully successful render. -/
def okEnv : RenderEnv :=
  { pipRuns := fun _ => { returncode := 0, stdout := "", stderr := "" }
    renderResult := { returncode := 0, stdout := "out", stderr := "" }
    scratchFiles := ["media/videos/scene/480p15/S.mp4"] }

/-- Concrete valid request without additional packages. -/
def okRequest : CreateJobRequest :=
  { python_code := "from manim import Scene"
    quality := "low"
    additional_packages := none }

/-- Concrete environment in which the renderer exits non-zero. -/
def failRenderEnv : RenderEnv :=
  { pipRuns := fun _ => { returncode := 0, stdout := "", stderr := "" }
    renderResult := { returncode := 1, stdout := "render out", stderr := "render err" }
    scratchFiles := [] }

/-- Concrete registry holding one completed job with a published video. -/
def w2Registry : Registry :=
  [("a1", { id := "a1"
            status := JobStatus.completed
            quality := "low"
            additional_packages := []
            stdout_log := ""
            stderr_log := ""
            output_path := some "/out/a1.mp4"
            error_message := none })]

/-!  Helper lemmas shared by the claim theorems below. -/

theorem rmtree_ignore_errors (b : Bool) : rmtree true b = Except.ok () := by
  cases b <;> rfl

theorem validQuality_cases (q : String) (hq : validQuality q = true) :
    q = "low" ∨ q = "medium" ∨ q = "high" := by
  simp only [validQuality, Bool.or_eq_true, beq_iff_eq] at hq
  tauto

theorem validQuality_flag (q : String) (hq : validQuality q = true) :
    ∃ f, quality_flag q = some f := by
  rcases validQuality_cases q hq with h | h | h <;> subst h <;> exact ⟨_, rfl⟩

theorem validate_some_quality (raw : RawCreateJobRequest)
    (payload : CreateJobRequest)
    (h : validateCreateJobRequest raw = some payload) :
    validQuality payload.quality = true := by
  unfold validateCreateJobRequest at h
  split at h
  · cases h
  split at h
  · cases h
  split at h
  · cases h
  rename_i hq
  have hq' : validQuality (raw.quality.getD "medium") = true := by
    cases hval : validQuality (raw.quality.getD "medium")
    · exact absurd hval hq
    · rfl
  split at h
  · split at h
    · cases h
    · cases h
      exact hq'
  · cases h
    exact hq'

theorem render_and_publish_ok_cases (job : Job) (env : RenderEnv)
    (outputRoot : String) (j : Job)
    (h : (render_and_publish job env outputRoot).outcome = Except.ok j) :
    (j.status = JobStatus.completed ∨ j.status = JobStatus.failed) ∧
    (j.status = JobStatus.failed → j.error_message ≠ none) ∧
    (j.status = JobStatus.completed →
      ∃ p, j.output_path = some p ∧
        (render_and_publish job env outputRoot).copies.map Prod.snd = [p]) := by
  rcases eq_or_ne env.renderResult.returncode 0 with hret | hret
  · cases hglob : mp4Glob env.scratchFiles with
    | nil =>
        simp [render_and_publish, hret, hglob] at h
        subst h
        refine ⟨Or.inr rfl, ?_, ?_⟩
        · intro _
          simp
        · intro hc
          simp at hc
    | cons f rest =>
        simp [render_and_publish, hret, hglob] at h
        subst h
        refine ⟨Or.inl rfl, ?_, ?_⟩
        · intro hf
          simp at hf
        · intro _
          exact ⟨_, rfl, by simp [render_and_publish, hret, hglob]⟩
  · simp [render_and_publish, hret] at h
    subst h
    refine ⟨Or.inr rfl, ?_, ?_⟩
    · intro _
      simp
    · intro hc
      simp at hc

theorem run_manim_ok_cases (job : Job) (request : CreateJobRequest)
    (env : RenderEnv) (outputRoot : String) (j : Job)
    (h : (run_manim job request env outputRoot).outcome = Except.ok j) :
    (j.status = JobStatus.completed ∨ j.status = JobStatus.failed) ∧
    (j.status = JobStatus.failed → j.error_message ≠ none) ∧
    (j.status = JobStatus.completed →
      ∃ p, j.output_path = some p ∧
        (run_manim job request env outputRoot).copies.map Prod.snd = [p]) := by
  cases hq : quality_flag request.quality with
  | none => simp [run_manim, hq] at h
  | some flag =>
    rcases haps : request.additional_packages with _ | ps
    · simp only [run_manim, hq, haps] at h ⊢
      exact render_and_publish_ok_cases _ _ _ _ h
    · cases ps with
      | nil =>
          simp only [run_manim, hq, haps, List.isEmpty_nil, Bool.not_true,
            Bool.false_eq_true, if_false] at h ⊢
          exact render_and_publish_ok_cases _ _ _ _ h
      | cons p0 prest =>
          cases hpip : pip_install env.pipRuns with
          | ok install_result =>
              simp only [run_manim, hq, haps, List.isEmpty_cons, Bool.not_false,
                if_true, hpip] at h ⊢
              exact render_and_publish_ok_cases _ _ _ _ h
          | error e =>
              cases e with
              | keyError k =>
                  simp [run_manim, hq, haps, hpip] at h
              | calledProcessError exc =>
                  simp [run_manim, hq, haps, hpip] at h
                  subst h
                  refine ⟨Or.inr rfl, ?_, ?_⟩
                  · intro _
                    simp
                  · intro hc
                    simp at hc
              | retryError last =>
                  simp [run_manim, hq, haps, hpip] at h

theorem execute_job_ok_spec (job : Job) (request : CreateJobRequest)
    (env : RenderEnv) (outputRoot tmpDir : String) (rmtreeOk : Bool) :
    ∃ res, execute_job job request env outputRoot tmpDir rmtreeOk
        = Except.ok res ∧
      res.statusWrites = [JobStatus.running, res.finalJob.status] ∧
      (res.finalJob.status = JobStatus.completed ∨
        res.finalJob.status = JobStatus.failed) ∧
      (res.finalJob.status = JobStatus.failed →
        res.finalJob.error_message ≠ none) ∧
      (res.finalJob.status = JobStatus.completed →
        ∃ p, res.finalJob.output_path = some p ∧
          res.copies.map Prod.snd = [p]) := by
  cases hout : (run_manim { job with status := JobStatus.running }
      request env outputRoot).outcome with
  | ok j =>
      obtain ⟨hterm, hmsg, hcomp⟩ := run_manim_ok_cases _ _ _ _ _ hout
      refine ⟨{ finalJob := j
                copies := (run_manim { job with status := JobStatus.running }
                  request env outputRoot).copies
                statusWrites := [JobStatus.running, j.status]
                effects := [.markRunning job.id, .removeScratch tmpDir,
                            .publishRecord job.id] }, ?_, rfl, hterm, hmsg, hcomp⟩
      simp only [execute_job, rmtree_ignore_errors, hout]
  | error ep =>
      obtain ⟨exc, jAtRaise⟩ := ep
      refine ⟨⟨{ jAtRaise with
                 status := JobStatus.failed,
                 error_message := some (strOfExc exc) },
        (run_manim { job with status := JobStatus.running }
          request env outputRoot).copies,
        [JobStatus.running, JobStatus.failed],
        [.markRunning job.id, .removeScratch tmpDir,
         .publishRecord job.id]⟩, ?_, rfl, Or.inr rfl, ?_, ?_⟩
      · simp only [execute_job, rmtree_ignore_errors, hout]
      · intro _
        simp
      · intro hc
        simp at hc

/-- C9: the quality-to-flag mapping sends low, medium, high to exactly -ql,
-qm, -qh, and for every quality that passed the request schema's pattern
constraint (in particular for any payload accepted by
validateCreateJobRequest) the KeyError branch of the mapping is
unreachable. -/
theorem quality_flag_table_correct :
    quality_flag "low" = some "-ql" ∧
    quality_flag "medium" = some "-qm" ∧
    quality_flag "high" = some "-qh" ∧
    (∀ q, validQuality q = true → ∃ f, quality_flag q = some f) ∧
    (∀ raw payload, validateCreateJobRequest raw = some payload →
      ∃ f, quality_flag payload.quality = some f) := by
  refine ⟨rfl, rfl, rfl, validQuality_flag, ?_⟩
  intro raw payload h
  exact validQuality_flag _ (validate_some_quality raw payload h)

/-- Witness for the C9 theorem at the concrete quality low. -/
theorem quality_flag_table_correct_witness :
    ∃ f, quality_flag "low" = some f :=
  quality_flag_table_correct.2.2.2.1 "low" rfl

/-- C10: the read endpoints GET jobs, GET jobs id, GET jobs id video and
GET health perform only read operations on the registry; running their
registry accesses leaves the registry (hence every stored job record)
unchanged. -/
theorem read_endpoints_preserve_registry :
    ∀ (R : Registry) (id : String),
      runOps R list_jobs_ops = R ∧
      runOps R (get_job_ops id) = R ∧
      runOps R (download_video_ops id) = R ∧
      runOps R health_check_ops = R :=
  fun _ _ => ⟨rfl, rfl, rfl, rfl⟩

/-- C7: on every execution path (success, pipeline failure, unexpected
fault) the executor performs the scratch-directory removal before
publishing the terminal record, its result does not depend on whether the
removal succeeds (failures suppressed), and no exception escapes it. -/
theorem scratch_cleanup_always_runs :
    ∀ (job : Job) (request : CreateJobRequest) (env : RenderEnv)
      (outputRoot tmpDir : String) (rmtreeOk : Bool),
      execute_job job request env outputRoot tmpDir rmtreeOk
        = execute_job job request env outputRoot tmpDir true ∧
      ∃ res, execute_job job request env outputRoot tmpDir rmtreeOk
          = Except.ok res ∧
        res.effects = [Effect.markRunning job.id, Effect.removeScratch tmpDir,
                       Effect.publishRecord job.id] := by
  intro job request env outputRoot tmpDir b
  cases b
  · exact ⟨rfl, ⟨_, rfl, rfl⟩⟩
  · exact ⟨rfl, ⟨_, rfl, rfl⟩⟩

/-- C3: over the whole lifetime of a job record its status history is
exactly pending, then running, then a terminal state; every step is an
allowed transition and a terminal status is never followed by a
non-terminal one. -/
theorem status_monotonic_terminal :
    ∀ (payload : CreateJobRequest) (env : RenderEnv)
      (outputRoot tmpDir job_id : String) (rmtreeOk : Bool),
      ∃ s, isTerminal s ∧
        jobStatusHistory payload env outputRoot tmpDir job_id rmtreeOk
          = [JobStatus.pending, JobStatus.running, s] ∧
        allowedTransition JobStatus.pending JobStatus.running ∧
        allowedTransition JobStatus.running s ∧
        ¬ isTerminal JobStatus.pending ∧
        ¬ isTerminal JobStatus.running := by
  intro payload env outputRoot tmpDir job_id b
  obtain ⟨res, hres, hsw, hterm, -, -⟩ :=
    execute_job_ok_spec (create_job payload job_id) payload env outputRoot
      tmpDir b
  refine ⟨res.finalJob.status, hterm, ?_, trivial, ?_, ?_, ?_⟩
  · simp only [jobStatusHistory, hres, hsw]
    rfl
  · rcases hterm with h | h <;> rw [h] <;> trivial
  · simp [isTerminal]
  · simp [isTerminal]

/-- C4: every terminal record the executor publishes satisfies the data
model invariants: a completed record has output_path set to a path that was
just written by the publication copy, and a failed record has error_message
set; this covers the unexpected-fault path as well. -/
theorem terminal_record_invariants :
    ∀ (job : Job) (request : CreateJobRequest) (env : RenderEnv)
      (outputRoot tmpDir : String) (rmtreeOk : Bool) (res : ExecResult),
      execute_job job request env outputRoot tmpDir rmtreeOk = Except.ok res →
      (res.finalJob.status = JobStatus.completed →
        ∃ p, res.finalJob.output_path = some p ∧
          res.copies.map Prod.snd = [p]) ∧
      (res.finalJob.status = JobStatus.failed →
        res.finalJob.error_message ≠ none) := by
  intro job request env outputRoot tmpDir b res h
  obtain ⟨res2, hres2, -, -, hmsg, hcomp⟩ :=
    execute_job_ok_spec job request env outputRoot tmpDir b
  rw [h] at hres2
  cases hres2
  exact ⟨hcomp, hmsg⟩

/-- Witness for the C4 theorem: a concrete successful execution yields a
completed record whose output_path was just published. -/
theorem terminal_record_invariants_witness :
    ∃ res, execute_job (create_job okRequest "jobid00") okRequest okEnv
        "/outputs" "/tmp/manim-job-w" true = Except.ok res ∧
      res.finalJob.status = JobStatus.completed ∧
      ∃ p, res.finalJob.output_path = some p ∧
        res.copies.map Prod.snd = [p] := by
  refine ⟨_, rfl, rfl, ?_⟩
  exact (terminal_record_invariants (create_job okRequest "jobid00") okRequest
    okEnv "/outputs" "/tmp/manim-job-w" true _ rfl).1 rfl

/-- C5: the render invocation appends the captured standard output and
standard error of the renderer subprocess to the job's logs regardless of
outcome, and a non-zero exit terminates the job failed with error message
Manim rendering failed and the subprocess's stderr text present in
stderr_log. -/
theorem render_capture_and_failure :
    ∀ (job : Job) (env : RenderEnv) (outputRoot : String),
      ∃ j, (render_and_publish job env outputRoot).outcome = Except.ok j ∧
        j.stdout_log = job.stdout_log ++ env.renderResult.stdout ∧
        j.stderr_log = job.stderr_log ++ env.renderResult.stderr ∧
        (env.renderResult.returncode ≠ 0 →
          j.status = JobStatus.failed ∧
          j.error_message = some "Manim rendering failed" ∧
          ∃ pre, j.stderr_log = pre ++ env.renderResult.stderr) := by
  intro job env outputRoot
  rcases eq_or_ne env.renderResult.returncode 0 with hret | hret
  · cases hglob : mp4Glob env.scratchFiles with
    | nil =>
        exact ⟨{ job with
                 stdout_log := job.stdout_log ++ env.renderResult.stdout,
                 stderr_log := job.stderr_log ++ env.renderResult.stderr,
                 status := JobStatus.failed,
                 error_message := some "No MP4 generated" },
          by simp [render_and_publish, hret, hglob], rfl, rfl,
          fun hc => absurd hret hc⟩
    | cons f rest =>
        exact ⟨{ job with
                 stdout_log := job.stdout_log ++ env.renderResult.stdout,
                 stderr_log := job.stderr_log ++ env.renderResult.stderr,
                 output_path := some (outputRoot ++ "/" ++ job.id ++ ".mp4"),
                 status := JobStatus.completed },
          by simp [render_and_publish, hret, hglob], rfl, rfl,
          fun hc => absurd hret hc⟩
  · exact ⟨{ job with
             stdout_log := job.stdout_log ++ env.renderResult.stdout,
             stderr_log := job.stderr_log ++ env.renderResult.stderr,
             status := JobStatus.failed,
             error_message := some "Manim rendering failed" },
      by simp [render_and_publish, hret], rfl, rfl,
      fun _ => ⟨rfl, rfl, job.stderr_log, rfl⟩⟩

/-- Witness for the C5 theorem: a concrete renderer failure with exit code 1
yields the failed record with message Manim rendering failed and the
renderer's stderr text at the end of stderr_log. -/
theorem render_capture_and_failure_witness :
    ∃ j, (render_and_publish (create_job okRequest "w5") failRenderEnv
        "/outputs").outcome = Except.ok j ∧
      j.status = JobStatus.failed ∧
      j.error_message = some "Manim rendering failed" ∧
      ∃ pre, j.stderr_log = pre ++ failRenderEnv.renderResult.stderr := by
  obtain ⟨j, h1, -, -, h4⟩ :=
    render_capture_and_failure (create_job okRequest "w5") failRenderEnv
      "/outputs"
  obtain ⟨ha, hb, hc⟩ := h4 (by decide)
  exact ⟨j, h1, ha, hb, hc⟩

/-- C6: after a zero-exit render, when the recursive mp4 search under the
media subdirectory finds nothing the job terminates failed with error
message No MP4 generated and nothing is copied; when it finds at least one
file the first in enumeration order is copied to the output root under the
job id with the mp4 extension, output_path is set to that destination and
the job is marked completed. -/
theorem output_discovery_publication :
    ∀ (job : Job) (env : RenderEnv) (outputRoot : String),
      env.renderResult.returncode = 0 →
      (mp4Glob env.scratchFiles = [] →
        ∃ j, (render_and_publish job env outputRoot).outcome = Except.ok j ∧
          j.status = JobStatus.failed ∧
          j.error_message = some "No MP4 generated" ∧
          (render_and_publish job env outputRoot).copies = []) ∧
      (∀ f rest, mp4Glob env.scratchFiles = f :: rest →
        ∃ j, (render_and_publish job env outputRoot).outcome = Except.ok j ∧
          j.status = JobStatus.completed ∧
          j.output_path = some (outputRoot ++ "/" ++ job.id ++ ".mp4") ∧
          (render_and_publish job env outputRoot).copies
            = [(f, outputRoot ++ "/" ++ job.id ++ ".mp4")]) := by
  intro job env outputRoot hret
  constructor
  · intro hglob
    exact ⟨{ job with
             stdout_log := job.stdout_log ++ env.renderResult.stdout,
             stderr_log := job.stderr_log ++ env.renderResult.stderr,
             status := JobStatus.failed,
             error_message := some "No MP4 generated" },
      by simp [render_and_publish, hret, hglob], rfl, rfl,
      by simp [render_and_publish, hret, hglob]⟩
  · intro f rest hglob
    exact ⟨{ job with
             stdout_log := job.stdout_log ++ env.renderResult.stdout,
             stderr_log := job.stderr_log ++ env.renderResult.stderr,
             output_path := some (outputRoot ++ "/" ++ job.id ++ ".mp4"),
             status := JobStatus.completed },
      by simp [render_and_publish, hret, hglob], rfl, rfl,
      by simp [render_and_publish, hret, hglob]⟩

/-- Witness for the C6 theorem at a concrete successful render whose media
directory holds exactly one mp4 file. -/
theorem output_discovery_publication_witness :
    ∃ j, (render_and_publish (create_job okRequest "w6") okEnv
        "/outputs").outcome = Except.ok j ∧
      j.status = JobStatus.completed ∧
      j.output_path = some ("/outputs" ++ "/" ++ "w6" ++ ".mp4") ∧
      (render_and_publish (create_job okRequest "w6") okEnv "/outputs").copies
        = [("media/videos/scene/480p15/S.mp4",
            "/outputs" ++ "/" ++ "w6" ++ ".mp4")] := by
  exact (output_discovery_publication (create_job okRequest "w6") okEnv
    "/outputs" rfl).2 "media/videos/scene/480p15/S.mp4" [] rfl

/-- C1 (divergence evidence): with a non-empty additional_packages list and
an installer that exits non-zero on all 3 attempts, the tenacity RetryError
escapes run_manim (the expected failure DOES raise across the pipeline's
boundary), and the executor's catch-all terminates the job failed with
error_message equal to the exception text rather than Failed to install
additional packages, with neither the last attempt's stdout nor its stderr
appended to the logs. -/
theorem pip_retry_error_escapes :
    (run_manim { create_job c1Request "a1b2c3" with status := JobStatus.running }
        c1Request c1Env "/outputs").outcome
      = Except.error
          (PyExc.retryError { returncode := 1, stdout := "pip out", stderr := "pip err" },
           { create_job c1Request "a1b2c3" with status := JobStatus.running }) ∧
    ∃ res, execute_job (create_job c1Request "a1b2c3") c1Request c1Env
        "/outputs" "/tmp/manim-job-x" true = Except.ok res ∧
      res.finalJob.status = JobStatus.failed ∧
      res.finalJob.error_message
        = some (strOfExc (PyExc.retryError
            { returncode := 1, stdout := "pip out", stderr := "pip err" })) ∧
      res.finalJob.error_message ≠ some "Failed to install additional packages" ∧
      res.finalJob.stdout_log = "" ∧
      res.finalJob.stderr_log = "" ∧
      pipAttempts c1Env.pipRuns = 3 := by
  refine ⟨rfl, _, rfl, rfl, rfl, ?_, rfl, rfl, rfl⟩
  decide

theorem validate_none_iff (raw : RawCreateJobRequest) :
    validateCreateJobRequest raw = none ↔
      (raw.python_code.length = 0 ∨ 50000 < raw.python_code.length ∨
       validQuality (raw.quality.getD "medium") = false ∨
       ∃ ps, raw.additional_packages = some ps ∧ 10 < ps.length) := by
  obtain ⟨code, q, aps⟩ := raw
  simp only [validateCreateJobRequest]
  split_ifs with h1 h2 h3
  · exact iff_of_true rfl (Or.inl (by omega))
  · exact iff_of_true rfl (Or.inr (Or.inl h2))
  · exact iff_of_true rfl (Or.inr (Or.inr (Or.inl h3)))
  · have h3t : validQuality (q.getD "medium") = true := by
      cases hv : validQuality (q.getD "medium")
      · exact absurd hv h3
      · rfl
    cases aps with
    | none =>
        dsimp only
        constructor
        · intro h
          cases h
        · rintro (h | h | h | ⟨ps, hps, -⟩)
          · omega
          · exact absurd h h2
          · rw [h3t] at h
            cases h
          · cases hps
    | some ps =>
        dsimp only
        split_ifs with h4
        · exact iff_of_true rfl (Or.inr (Or.inr (Or.inr ⟨ps, rfl, h4⟩)))
        · constructor
          · intro h
            cases h
          · rintro (h | h | h | ⟨ps2, hps2, hlen⟩)
            · omega
            · exact absurd h h2
            · rw [h3t] at h
              cases h
            · cases hps2
              exact absurd hlen h4

/-- C8: a creation request is rejected with 422 (and no job record created)
exactly when python_code has length 0 or more than 50000 characters, or the
(defaulted) quality fails the pattern, or additional_packages has more than
10 entries; a request passing validation yields a 201 response carrying a
pending record that is inserted into the registry. -/
theorem create_validation_and_creation :
    ∀ (raw : RawCreateJobRequest) (job_id : String) (R : Registry),
      (validateCreateJobRequest raw = none ↔
        (raw.python_code.length = 0 ∨ 50000 < raw.python_code.length ∨
         validQuality (raw.quality.getD "medium") = false ∨
         ∃ ps, raw.additional_packages = some ps ∧ 10 < ps.length)) ∧
      (validateCreateJobRequest raw = none →
        create_job_endpoint raw job_id R = none) ∧
      (∀ payload, validateCreateJobRequest raw = some payload →
        ∃ resp R2, create_job_endpoint raw job_id R = some (resp, R2) ∧
          resp.statusCode = 201 ∧
          resp.body.status = JobStatus.pending ∧
          R2 = R.set job_id resp.body) := by
  intro raw job_id R
  refine ⟨validate_none_iff raw, ?_, ?_⟩
  · intro h
    simp [create_job_endpoint, h]
  · intro payload h
    have heq : create_job_endpoint raw job_id R
        = some ({ statusCode := 201, body := create_job payload job_id },
                R.set job_id (create_job payload job_id)) := by
      simp [create_job_endpoint, h]
    exact ⟨_, _, heq, rfl, rfl, rfl⟩

/-- Witness for the C8 theorem: a concrete valid request is accepted with a
201 pending record inserted into an empty registry. -/
theorem create_validation_and_creation_witness :
    ∃ resp R2,
      create_job_endpoint
        { python_code := "from manim import Scene"
          quality := some "high"
          additional_packages := none } "w8" ([] : Registry)
        = some (resp, R2) ∧
      resp.statusCode = 201 ∧
      resp.body.status = JobStatus.pending ∧
      R2 = Registry.set ([] : Registry) "w8" resp.body := by
  exact (create_validation_and_creation
    { python_code := "from manim import Scene"
      quality := some "high"
      additional_packages := none } "w8" ([] : Registry)).2.2
    { python_code := "from manim import Scene"
      quality := "high"
      additional_packages := none } rfl

theorem takeWhile_all_append {α : Type} (p : α → Bool) (l1 l2 : List α)
    (x : α) (h1 : ∀ c ∈ l1, p c = true) (hx : p x = false) :
    List.takeWhile p (l1 ++ x :: l2) = l1 := by
  induction l1 with
  | nil => simp [List.takeWhile_cons, hx]
  | cons a l ih =>
      have ha : p a = true := h1 a (List.mem_cons_self a l)
      simp only [List.cons_append, List.takeWhile_cons, ha, if_true]
      rw [ih (fun c hc => h1 c (List.mem_cons_of_mem a hc))]

theorem pathName_concat (t s : String) (hs : ∀ c ∈ s.data, c ≠ '/') :
    pathName (t ++ "/" ++ s) = s := by
  unfold pathName
  have hdata : (t ++ "/" ++ s).data = (t.data ++ ['/']) ++ s.data := by
    rw [String.data_append, String.data_append]
  rw [hdata]
  have hrev : ((t.data ++ ['/']) ++ s.data).reverse
      = s.data.reverse ++ '/' :: t.data.reverse := by
    simp [List.reverse_append]
  rw [hrev]
  rw [takeWhile_all_append _ _ _ _
    (fun c hc => by simpa using hs c (List.mem_reverse.mp hc))
    (by simp)]
  rw [List.reverse_reverse]

/-- C2: the video download endpoint returns 404 Job not found for an
unknown id, 409 Job not completed when the record's status is not completed
or its output path is absent, 410 Video expired when the published file is
missing from disk, and otherwise streams the file at output_path with
content type video/mp4 and filename id dot mp4 (given that completed
records hold the output path the pipeline published for this id). -/
theorem download_video_spec :
    ∀ (R : Registry) (fileExists : String → Bool) (outputRoot id : String),
      (∀ c ∈ id.data, c ≠ '/') →
      (∀ j, R.get id = some j → j.status = JobStatus.completed →
        j.output_path = some (outputRoot ++ "/" ++ (id ++ ".mp4"))) →
      (R.get id = none →
        download_video R fileExists id
          = VideoResponse.notFound404 "Job not found") ∧
      (∀ j, R.get id = some j →
        (j.status ≠ JobStatus.completed ∨ j.output_path = none) →
        download_video R fileExists id
          = VideoResponse.notCompleted409 "Job not completed") ∧
      (∀ j p, R.get id = some j → j.status = JobStatus.completed →
        j.output_path = some p → fileExists p = false →
        download_video R fileExists id
          = VideoResponse.expired410 "Video expired") ∧
      (∀ j p, R.get id = some j → j.status = JobStatus.completed →
        j.output_path = some p → fileExists p = true →
        download_video R fileExists id
          = VideoResponse.fileResponse p "video/mp4" (id ++ ".mp4")) := by
  intro R fx outputRoot id hid hWF
  have hmp4 : ∀ c ∈ (id ++ ".mp4").data, c ≠ '/' := by
    intro c hc
    rw [String.data_append] at hc
    rcases List.mem_append.mp hc with hc | hc
    · exact hid c hc
    · have hc4 : c ∈ ['.', 'm', 'p', '4'] := hc
      simp at hc4
      rcases hc4 with rfl | rfl | rfl | rfl <;> decide
  refine ⟨?_, ?_, ?_, ?_⟩
  · intro h
    simp [download_video, h]
  · intro j hj hcond
    have hc : j.status ≠ JobStatus.completed ∨ pyFalsy j.output_path = true := by
      rcases hcond with h | h
      · exact Or.inl h
      · exact Or.inr (by rw [h]; rfl)
    simp only [download_video, hj]
    rw [if_pos hc]
  · intro j p hj hst hout hfx
    have hp : p = outputRoot ++ "/" ++ (id ++ ".mp4") :=
      Option.some.inj (hout ▸ hWF j hj hst)
    have hpne : pyFalsy (some p) = false := by
      have hne : p ≠ "" := by
        intro h0
        have := congrArg String.data (hp ▸ h0)
        rw [String.data_append] at this
        simp at this
      simpa [pyFalsy] using hne
    have hcondF : ¬(j.status ≠ JobStatus.completed ∨
        pyFalsy j.output_path = true) := by
      rintro (h | h)
      · exact h hst
      · rw [hout, hpne] at h
        cases h
    simp only [download_video, hj]
    rw [if_neg hcondF]
    simp only [hout]
    rw [if_pos hfx]
  · intro j p hj hst hout hfx
    have hp : p = outputRoot ++ "/" ++ (id ++ ".mp4") :=
      Option.some.inj (hout ▸ hWF j hj hst)
    have hpne : pyFalsy (some p) = false := by
      have hne : p ≠ "" := by
        intro h0
        have := congrArg String.data (hp ▸ h0)
        rw [String.data_append] at this
        simp at this
      simpa [pyFalsy] using hne
    have hcondF : ¬(j.status ≠ JobStatus.completed ∨
        pyFalsy j.output_path = true) := by
      rintro (h | h)
      · exact h hst
      · rw [hout, hpne] at h
        cases h
    simp only [download_video, hj]
    rw [if_neg hcondF]
    simp only [hout]
    rw [if_neg (by simp [hfx])]
    rw [hp, pathName_concat outputRoot (id ++ ".mp4") hmp4]

/-- Witness for the C2 theorem: in a registry holding one completed job
with a published file that exists on disk, the download endpoint streams
that file as video/mp4 named id dot mp4. -/
theorem download_video_spec_witness :
    download_video w2Registry (fun _ => true) "a1"
      = VideoResponse.fileResponse "/out/a1.mp4" "video/mp4" ("a1" ++ ".mp4") := by
  have hid : ∀ c ∈ "a1".data, c ≠ '/' := by
    intro c hc
    simp at hc
    rcases hc with rfl | rfl <;> decide
  have hWF : ∀ j, Registry.get w2Registry "a1" = some j →
      j.status = JobStatus.completed →
      j.output_path = some ("/out" ++ "/" ++ ("a1" ++ ".mp4")) := by
    intro j hj _
    cases hj
    rfl
  exact (download_video_spec w2Registry (fun _ => true) "/out" "a1" hid
    hWF).2.2.2 _ "/out/a1.mp4" rfl rfl rfl rfl

/-- Witness for the C1 theorem: the concrete escaping outcome. -/
theorem pip_retry_error_escapes_witness :
    (run_manim { create_job c1Request "a1b2c3" with status := JobStatus.running }
        c1Request c1Env "/outputs").outcome
      = Except.error
          (PyExc.retryError { returncode := 1, stdout := "pip out", stderr := "pip err" },
           { create_job c1Request "a1b2c3" with status := JobStatus.running }) :=
  pip_retry_error_escapes.1

/-- Witness for the C3 theorem at a concrete successful execution. -/
theorem status_monotonic_terminal_witness :
    ∃ s, isTerminal s ∧
      jobStatusHistory okRequest okEnv "/outputs" "/tmp/manim-job-w3" "w3" true
        = [JobStatus.pending, JobStatus.running, s] ∧
      allowedTransition JobStatus.pending JobStatus.running ∧
      allowedTransition JobStatus.running s ∧
      ¬ isTerminal JobStatus.pending ∧
      ¬ isTerminal JobStatus.running :=
  status_monotonic_terminal okRequest okEnv "/outputs" "/tmp/manim-job-w3"
    "w3" true

/-- Witness for the C7 theorem at a concrete execution with a failing
removal. -/
theorem scratch_cleanup_always_runs_witness :
    execute_job (create_job okRequest "w7") okRequest okEnv "/outputs"
        "/tmp/manim-job-w7" false
      = execute_job (create_job okRequest "w7") okRequest okEnv "/outputs"
        "/tmp/manim-job-w7" true ∧
    ∃ res, execute_job (create_job okRequest "w7") okRequest okEnv "/outputs"
        "/tmp/manim-job-w7" false = Except.ok res ∧
      res.effects = [Effect.markRunning (create_job okRequest "w7").id,
        Effect.removeScratch "/tmp/manim-job-w7",
        Effect.publishRecord (create_job okRequest "w7").id] :=
  scratch_cleanup_always_runs (create_job okRequest "w7") okRequest okEnv
    "/outputs" "/tmp/manim-job-w7" false

/-- Witness for the C10 theorem at a concrete registry. -/
theorem read_endpoints_preserve_registry_witness :
    runOps w2Registry list_jobs_ops = w2Registry ∧
    runOps w2Registry (get_job_ops "a1") = w2Registry ∧
    runOps w2Registry (download_video_ops "a1") = w2Registry ∧
    runOps w2Registry health_check_ops = w2Registry :=
  read_endpoints_preserve_registry w2Registry "a1"

end ManimWorker
